import Mathlib

/-!
Verification development for the Tatlin 3D-model viewer core.

The definitions below are a shallow embedding of the three source files:
tatlin/libtatlin/storage.py (ModelFile), tatlin/lib/gl/scene.py (Scene)
and tests/unit/lib/gl/test_stlmodel.py.  Python floats are modelled as
rationals where the code only moves numbers around, and as real numbers
where the code evaluates transcendental functions.  Exceptions are
modelled by an explicit error type.
-/

namespace Tatlin

/-- Python exception kinds observable from the embedded code.  The classes
ModelFileError, GcodeParserError, StlParseError come from storage.py and the
parser modules; geometryError models the GeometryError of the spec (section 7);
unsupportedExtension models the distinct UnsupportedExtension kind named by the
spec taxonomy (storage.py itself defines no such class); zeroDivisionError and
keyError are builtin Python exceptions. -/
inductive PyError where
  | modelFileError (msg : String)
  | gcodeParserError (msg : String)
  | stlParseError (msg : String)
  | geometryError (msg : String)
  | unsupportedExtension (msg : String)
  | zeroDivisionError
  | keyError (key : String)
deriving DecidableEq

/-- True exactly on the two format-specific parser error kinds. -/
def PyError.isParserSpecific : PyError → Bool
  | PyError.gcodeParserError _ => true
  | PyError.stlParseError _ => true
  | _ => false

/-- True exactly on the UnsupportedExtension kind of the spec taxonomy. -/
def PyError.isUnsupportedExtension : PyError → Bool
  | PyError.unsupportedExtension _ => true
  | _ => false

/-- Suffix of a character list strictly after its last occurrence of sep;
the whole list when sep is absent.  Used to model os.path.basename and the
last-dot search of os.path.splitext. -/
def after_last (sep : Char) (l : List Char) : List Char :=
  l.foldl (fun acc c => if c = sep then [] else acc ++ [c]) []

/-- Model of os.path.basename for POSIX paths: the part of the path after
the last slash. -/
def basename (path : String) : String :=
  String.mk (after_last ('/') path.data)

/-- Model of the extension part of os.path.splitext on a basename: leading
dots are not extension separators, so the extension is nonempty only when a
dot follows some non-dot character; it then runs from the last dot to the
end and includes the dot. -/
def ext_chars (b : List Char) : List Char :=
  let stripped := b.dropWhile (fun c => c = '.')
  if stripped.contains ('.') then '.' :: after_last ('.') stripped else []

/-- Embedding of ModelFile.extension (storage.py lines 75-79):
os.path.splitext(self.basename)[-1].lower(). -/
def extension (path : String) : String :=
  String.mk ((ext_chars (basename path).data).map Char.toLower)

/-- Embedding of ModelFile.filetype (storage.py lines 81-92).  The first
argument models the optional ftype override given to the constructor.  An
extension outside .gcode, .nc, .stl raises ModelFileError. -/
def filetype (ftype : Option String) (path : String) : Except PyError String :=
  match ftype with
  | some t => Except.ok t
  | none =>
    if extension path = ".gcode" ∨ extension path = ".nc" ∨ extension path = ".stl" then
      Except.ok (if extension path = ".gcode" ∨ extension path = ".nc" then ("gcode") else ("stl"))
    else
      Except.error (PyError.modelFileError (("Unsupported file extension: ") ++ extension path))

/-- The model object returned by a loader: GcodeModel() or StlModel(). -/
inductive LoadedModel where
  | gcodeModel
  | stlModel
deriving DecidableEq

/-- Embedding of ModelFile.load_gcode_model (storage.py lines 106-115).
The argument models the outcome of parser.parse(callback); a
GcodeParserError raised there is rethrown as ModelFileError with the
message prefix of the source; other exception kinds propagate unchanged. -/
def load_gcode_model (α : Type) (parse : Except PyError α) : Except PyError (LoadedModel × α) :=
  match parse with
  | Except.ok d => Except.ok (LoadedModel.gcodeModel, d)
  | Except.error (PyError.gcodeParserError m) =>
      Except.error (PyError.modelFileError (("Parsing error: ") ++ m))
  | Except.error e => Except.error e

/-- Embedding of ModelFile.load_stl_model (storage.py lines 117-126), the
analogue for StlParseError. -/
def load_stl_model (α : Type) (parse : Except PyError α) : Except PyError (LoadedModel × α) :=
  match parse with
  | Except.ok d => Except.ok (LoadedModel.stlModel, d)
  | Except.error (PyError.stlParseError m) =>
      Except.error (PyError.modelFileError (("Parsing error: ") ++ m))
  | Except.error e => Except.error e

/-- Embedding of ModelFile.read (storage.py lines 103-104):
self.loaders[self.filetype](callback) with loaders a dict keyed by
"gcode" and "stl".  A filetype value outside the dict raises KeyError.
The two parse arguments model the outcomes the respective external parser
would produce for the file at this path. -/
def read (α : Type) (ftype : Option String) (path : String)
    (gcodeParse stlParse : Except PyError α) : Except PyError (LoadedModel × α) :=
  match filetype ftype path with
  | Except.error e => Except.error e
  | Except.ok ft =>
    if ft = "gcode" then load_gcode_model α gcodeParse
    else if ft = "stl" then load_stl_model α stlParse
    else Except.error (PyError.keyError ft)

/-- A 3D point or vector with rational coordinates. -/
abbrev Vec3 := ℚ × ℚ × ℚ

/-- One triangular facet: three vertices. -/
abbrev Facet := Vec3 × Vec3 × Vec3

/-- Rounding of q times 10 to the 6th to the nearest integer, ties to even:
the rounding performed by the %.6f conversion. -/
def round6 (q : ℚ) : ℤ :=
  let s : ℚ := q * 1000000
  let fl : ℤ := ⌊s⌋
  let fr : ℚ := s - (fl : ℚ)
  if fr < 1 / 2 then fl
  else if 1 / 2 < fr then fl + 1
  else if fl % 2 = 0 then fl else fl + 1

/-- Six-digit zero-padded decimal rendering of a natural number below 10^6. -/
def pad6 (r : ℕ) : String :=
  String.mk [Nat.digitChar (r / 100000 % 10), Nat.digitChar (r / 10000 % 10),
    Nat.digitChar (r / 1000 % 10), Nat.digitChar (r / 100 % 10),
    Nat.digitChar (r / 10 % 10), Nat.digitChar (r % 10)]

/-- Model of the %.6f conversion of the Python format strings in
ModelFile.format_facet: fixed point, exactly six digits after the decimal
point, no exponent, minus sign for negative values. -/
def fmt6 (q : ℚ) : String :=
  (if q < 0 then ("-") else ("")) ++ Nat.repr ((round6 q).natAbs / 1000000) ++ (".") ++
    pad6 ((round6 q).natAbs % 1000000)

/-- The three coordinates of a vector under %.6f separated by spaces. -/
def fmtVec (v : Vec3) : String :=
  fmt6 v.1 ++ (" ") ++ fmt6 v.2.1 ++ (" ") ++ fmt6 v.2.2

/-- Embedding of ModelFile.format_facet (storage.py lines 147-160).  The
template indents only the slot of the joined vertex lines, and the join
inserts a bare newline between vertex lines, so the second and third
vertex lines are not indented. -/
def format_facet (vertices : List Vec3) (normal : Vec3) : String :=
  ("facet normal ") ++ fmtVec normal ++ ("\n  outer loop\n    ") ++
    String.intercalate ("\n") (vertices.map (fun v => ("vertex ") ++ fmtVec v)) ++
    ("\n  endloop\nendfacet\n")

/-- The list comprehension of ModelFile.write_stl (storage.py lines
136-140): format_facet(vertices[i : i + 3], normals[i]) for i in
range(0, len(vertices), 3).  Returns none when normals[i] is out of range
(Python IndexError). -/
def facet_strings : List Vec3 → List Vec3 → Option (List String)
  | [], _ => some []
  | _ :: _, [] => none
  | [v], nrm :: _ => some [format_facet [v] nrm]
  | [v, w], nrm :: _ => some [format_facet [v, w] nrm]
  | v :: w :: u :: vs, nrm :: rest =>
    (facet_strings vs (rest.drop 2)).map
      (fun tail => format_facet [v, w, u] nrm :: tail)

/-- Embedding of the serialization performed by ModelFile.write_stl
(storage.py lines 128-145) after its assert on filetype: the file content
is the line solid, then print of the joined facet blocks (print appends a
newline after the join, producing a blank line), then the line endsolid. -/
def write_stl (vertices normals : List Vec3) : Option String :=
  (facet_strings vertices normals).map
    (fun blocks => ("solid\n") ++ String.join blocks ++ ("\n") ++ ("endsolid\n"))

/-- The facet block layout that the spec (section 6) and claim C1 describe:
all three vertex lines indented, nothing else. -/
def facet_block_spec (a b c n : Vec3) : String :=
  ("facet normal ") ++ fmtVec n ++ ("\n  outer loop\n    vertex ") ++ fmtVec a ++
    ("\n    vertex ") ++ fmtVec b ++ ("\n    vertex ") ++ fmtVec c ++
    ("\n  endloop\nendfacet\n")

/-- The whole-file layout claim C1 describes: a solid line, the facet
blocks with no other lines in between, and an endsolid line. -/
def write_stl_claim (facets : List (Facet × Vec3)) : String :=
  ("solid\n") ++
    String.join (facets.map (fun p => facet_block_spec p.1.1 p.1.2.1 p.1.2.2 p.2)) ++
    ("endsolid\n")

/-- Difference of two vectors, componentwise. -/
def vsub (u v : Vec3) : Vec3 :=
  (u.1 - v.1, u.2.1 - v.2.1, u.2.2 - v.2.2)

/-- Cross product of two vectors. -/
def cross (u v : Vec3) : Vec3 :=
  (u.2.1 * v.2.2 - u.2.2 * v.2.1, u.2.2 * v.1 - u.1 * v.2.2, u.1 * v.2.1 - u.2.1 * v.1)

/-- Squared Euclidean length of a vector. -/
def normSq (v : Vec3) : ℚ :=
  v.1 * v.1 + v.2.1 * v.2.1 + v.2.2 * v.2.2

/-- Exact rational square root: the nonnegative rational whose square is q
when q is the square of a rational, 0 otherwise.  It stands in for the
float square root on the exact-valued data of this development. -/
def ratSqrt (q : ℚ) : ℚ :=
  let n := Nat.sqrt q.num.natAbs
  let d := Nat.sqrt q.den
  if 0 ≤ q.num ∧ n * n = q.num.natAbs ∧ d * d = q.den then (n : ℚ) / (d : ℚ) else 0

/-- Normalization of a vector; a zero vector is returned as-is without
dividing (spec section 4.1 on degenerate facets). -/
def normalize (v : Vec3) : Vec3 :=
  if normSq v = 0 then v
  else
    let m := ratSqrt (normSq v)
    (v.1 / m, v.2.1 / m, v.2.2 / m)

/-- Consecutive vertex triples of a flat vertex list; an incomplete tail is
dropped (load_data rejects lengths that are not multiples of 3). -/
def chunk3 : List Vec3 → List Facet
  | a :: b :: c :: rest => (a, b, c) :: chunk3 rest
  | _ => []

/-- Flat vertex list of a facet list: every consecutive triple is one facet. -/
def flatten_facets : List Facet → List Vec3
  | [] => []
  | t :: rest => t.1 :: t.2.1 :: t.2.2 :: flatten_facets rest

/-- The facet normal: normalized cross product of the two edge vectors
taken from the first vertex, in winding order. -/
def facet_normal (t : Facet) : Vec3 :=
  normalize (cross (vsub t.2.1 t.1) (vsub t.2.2 t.1))

/-- Modelled from the spec: StlModel.calculate_normals lives in
tatlin/lib/gl/stlmodel.py, which is not under src.  The spec (section 4.1)
gives each facet normal as the normalized cross product of the edge vectors
in winding order; the in-src unit test test_calculate_normals and the
normals indexing normals[i], i = 0, 3, 6, ... in ModelFile.write_stl fix
the buffer layout to one normal per vertex, the facet normal repeated three
times, so the result has the length of the vertex list. -/
def calculate_normals (vertices : List Vec3) : List Vec3 :=
  (chunk3 vertices).flatMap
    (fun t => [facet_normal t, facet_normal t, facet_normal t])

/-- The vertex list of the in-src unit test StlModelTest.setUp. -/
def testVertices : List Vec3 :=
  [(0, 1 / 2, 0), (1 / 2, -1 / 2, 0), (-1 / 2, -1 / 2, 0)]

/-- Modelled from the spec: the StlModel transform state of
tatlin/lib/gl/stlmodel.py, which is not under src.  The spec (sections 3
and 4.1) gives scaling_factor, per-axis offset and cumulative per-axis
rotation state, a modified flag and an initialized flag. -/
structure StlModelState where
  scaling_factor : ℚ
  offset_x : ℚ
  offset_y : ℚ
  offset_z : ℚ
  rotation_x : ℚ
  rotation_y : ℚ
  rotation_z : ℚ
  modified : Bool
  initialized : Bool
deriving DecidableEq

/-- A rotation axis, Model.AXIS_X, AXIS_Y or AXIS_Z. -/
inductive Axis where
  | X
  | Y
  | Z
deriving DecidableEq

/-- Modelled from the spec: StlModel.load_data (section 4.1) ingests parsed
buffers and leaves the transform state at its defaults with the modified
flag false, as the in-src unit tests assert. -/
def load_data : StlModelState :=
  ⟨1, 0, 0, 0, 0, 0, 0, false, false⟩

/-- Modelled from the spec: StlModel.scale (section 4.1) multiplies
scaling_factor by the factor and sets modified, failing with GeometryError
when the factor is not positive and leaving the state unmodified then
(section 7). -/
def scale (factor : ℚ) (s : StlModelState) : StlModelState × Option PyError :=
  if factor ≤ 0 then (s, some (PyError.geometryError ("scale factor must be positive")))
  else ({ s with scaling_factor := s.scaling_factor * factor, modified := true }, none)

/-- Modelled from the spec: StlModel.translate (section 4.1) adds to the
offset and sets modified. -/
def translate (dx dy dz : ℚ) (s : StlModelState) : StlModelState :=
  { s with
      offset_x := s.offset_x + dx
      offset_y := s.offset_y + dy
      offset_z := s.offset_z + dz
      modified := true }

/-- Modelled from the spec: StlModel.rotate_rel (section 4.1) composes an
incremental rotation about one axis onto the cumulative per-axis state and
sets modified. -/
def rotate_rel (ax : Axis) (angle : ℚ) (s : StlModelState) : StlModelState :=
  match ax with
  | Axis.X => { s with rotation_x := s.rotation_x + angle, modified := true }
  | Axis.Y => { s with rotation_y := s.rotation_y + angle, modified := true }
  | Axis.Z => { s with rotation_z := s.rotation_z + angle, modified := true }

/-- Modelled from the spec: StlModel.rotate_abs (section 4.1) sets the
rotation component of one axis absolutely, leaves the other axes unchanged
and sets modified. -/
def rotate_abs (ax : Axis) (angle : ℚ) (s : StlModelState) : StlModelState :=
  match ax with
  | Axis.X => { s with rotation_x := angle, modified := true }
  | Axis.Y => { s with rotation_y := angle, modified := true }
  | Axis.Z => { s with rotation_z := angle, modified := true }

/-- Embedding of Scene.export_to_file (scene.py lines 61-66): it calls
model_file.write_stl(self.model) and then clears the modified flag.  The
Boolean argument models whether the write succeeded; when it raised, the
assignment is skipped and the exception propagates with the state as it
was. -/
def export_to_file (write_ok : Bool) (s : StlModelState) : StlModelState :=
  if write_ok then { s with modified := false } else s

/-- The model-mutating operations claim C6 ranges over, with export
parametrized by the write outcome. -/
inductive ModelOp where
  | scaleOp (factor : ℚ)
  | translateOp (dx dy dz : ℚ)
  | rotateRel (ax : Axis) (angle : ℚ)
  | rotateAbs (ax : Axis) (angle : ℚ)
  | exportOp (write_ok : Bool)
deriving DecidableEq

/-- One step of the model lifecycle: the state after running one operation
(a failing scale leaves the state unchanged and raises). -/
def model_step : ModelOp → StlModelState → StlModelState
  | ModelOp.scaleOp f, s => (scale f s).1
  | ModelOp.translateOp dx dy dz, s => translate dx dy dz s
  | ModelOp.rotateRel ax a, s => rotate_rel ax a s
  | ModelOp.rotateAbs ax a, s => rotate_abs ax a s
  | ModelOp.exportOp ok, s => export_to_file ok s

/-- Embedding of Scene.scale_model (scene.py lines 292-295): it calls
model.scale(factor) and then model.init(); init runs only when scale did
not raise, and its one-time render setup is modelled by the initialized
flag. -/
def scale_model (factor : ℚ) (s : StlModelState) : StlModelState × Option PyError :=
  match scale factor s with
  | (s2, none) => ({ s2 with initialized := true }, none)
  | (s2, some e) => (s2, some e)

/-- Embedding of Scene.change_model_dimension (scene.py lines 310-315).
current_value models getattr(self.model, dimension), read before the
division; Python raises ZeroDivisionError when the divisor is zero, before
any scaling is applied. -/
def change_model_dimension (current_value value : ℚ) (s : StlModelState) :
    StlModelState × Option PyError :=
  if current_value = 0 then (s, some PyError.zeroDivisionError)
  else scale_model ((value / current_value) * s.scaling_factor) s

/-- Modelled from the spec: the per-view camera state (section 3) of the
View classes in tatlin/lib/gl/views.py, which is not under src: pan
offsets, zoom factor and rotation angles. -/
structure ViewState where
  x : ℚ
  y : ℚ
  z : ℚ
  zoom_factor : ℚ
  azimuth : ℚ
  elevation : ℚ
deriving DecidableEq

/-- The view-owning part of Scene (scene.py lines 53-55): the scene owns
one View2D and one View3D for its whole lifetime, and current_view is a
reference to one of the two; the Boolean tag records which one, as
established by the mode_2d setter, with the perspective view current
initially. -/
structure SceneViews where
  view_ortho : ViewState
  view_perspective : ViewState
  current_is_2d : Bool
deriving DecidableEq

/-- The view the current_view reference denotes. -/
def current_view (s : SceneViews) : ViewState :=
  if s.current_is_2d then s.view_ortho else s.view_perspective

/-- Embedding of the Scene.mode_2d getter (scene.py lines 246-248):
isinstance(self.current_view, View2D). -/
def mode_2d (s : SceneViews) : Bool :=
  s.current_is_2d

/-- Embedding of the Scene.mode_2d setter (scene.py lines 250-252): it only
reassigns the current_view reference to one of the two owned views and
touches neither view state. -/
def set_mode_2d (value : Bool) (s : SceneViews) : SceneViews :=
  { s with current_is_2d := value }

/-- The model and actors fields of Scene, generic over the actor type. -/
structure SceneActors (α : Type) where
  model : Option α
  actors : List α
deriving DecidableEq

/-- The Scene operations that assign the model or actors fields:
add_model (scene.py lines 57-59), add_supporting_actor (lines 68-69) and
clear (lines 71-72); no other Scene method writes either field. -/
inductive SceneOp (α : Type) where
  | addModel (m : α)
  | addSupportingActor (a : α)
  | clearOp
deriving DecidableEq

/-- The effect of one actors-affecting Scene operation: add_model sets the
model and appends it to actors, add_supporting_actor appends, clear
empties actors and leaves the model reference alone. -/
def scene_step {α : Type} : SceneOp α → SceneActors α → SceneActors α
  | SceneOp.addModel m, s => { model := some m, actors := s.actors ++ [m] }
  | SceneOp.addSupportingActor a, s => { s with actors := s.actors ++ [a] }
  | SceneOp.clearOp, s => { s with actors := [] }

/-- The camera fields of the perspective view that Scene.display reads. -/
structure View3DState where
  y : ℝ
  z : ℝ
  zoom_factor : ℝ
  elevation : ℝ

/-- Conversion from degrees to radians: math.radians. -/
noncomputable def radians (d : ℝ) : ℝ :=
  d * Real.pi / 180

/-- Conversion from radians to degrees: math.degrees. -/
noncomputable def degrees (r : ℝ) : ℝ :=
  r * 180 / Real.pi

/-- The two-argument arctangent math.atan2 over the reals. -/
noncomputable def atan2 (y x : ℝ) : ℝ :=
  if 0 < x then Real.arctan (y / x)
  else if x < 0 ∧ 0 ≤ y then Real.arctan (y / x) + Real.pi
  else if x < 0 ∧ y < 0 then Real.arctan (y / x) - Real.pi
  else if x = 0 ∧ 0 < y then Real.pi / 2
  else if x = 0 ∧ y < 0 then -(Real.pi / 2)
  else 0

/-- Embedding of the perspective branch of Scene.display (scene.py lines
126-134): y is the view y pan divided by the zoom factor, the viewing
angle is minus the degree measure of atan2(z, y) minus the elevation, and
eye_height is the camera distance times the sine of that angle in
radians; this value is passed to every actor. -/
noncomputable def display_eye_height (v : View3DState) : ℝ :=
  let y := v.y / v.zoom_factor
  let z := v.z
  let angle := -(degrees (atan2 z y)) - v.elevation
  Real.sqrt (y ^ 2 + z ^ 2) * Real.sin (radians angle)

/-- Helper: round6 of 0 is 0. -/
theorem round6_zero : round6 0 = 0 := by
  unfold round6
  norm_num

/-- Helper: round6 of 1 is one million. -/
theorem round6_one : round6 1 = 1000000 := by
  unfold round6
  norm_num

/-- Helper: the %.6f rendering of 0. -/
theorem fmt6_zero : fmt6 0 = ("0.000000") := by
  unfold fmt6
  rw [round6_zero]
  rfl

/-- Helper: the %.6f rendering of 1. -/
theorem fmt6_one : fmt6 1 = ("1.000000") := by
  unfold fmt6
  rw [round6_one]
  rfl

/-- Helper: the exact rational square root of 1. -/
theorem ratSqrt_one : ratSqrt 1 = 1 := by
  unfold ratSqrt
  norm_num

/-- Helper: the flat vertex list of a facet list has three vertices per
facet. -/
theorem flatten_facets_length (tri : List Facet) :
    (flatten_facets tri).length = 3 * tri.length := by
  induction tri with
  | nil => rfl
  | cons t rest ih =>
    simp only [flatten_facets, List.length_cons, ih]
    omega

/-- Helper: chunking the flat vertex list recovers the facet list. -/
theorem chunk3_flatten (tri : List Facet) : chunk3 (flatten_facets tri) = tri := by
  induction tri with
  | nil => rfl
  | cons t rest ih => simp [flatten_facets, chunk3, ih]

/-- Helper: on the flat vertex list of a facet list with a normals list of
the matching per-vertex length, the write_stl loop produces one block per
facet, formatting the facet's three vertices with the normal at index
3 k, the first entry of the k-th normal triple. -/
theorem facet_strings_flatten (tri : List Facet) :
    ∀ nrm : List Vec3, nrm.length = 3 * tri.length →
      facet_strings (flatten_facets tri) nrm =
        some ((tri.zip (chunk3 nrm)).map
          (fun p => format_facet [p.1.1, p.1.2.1, p.1.2.2] p.2.1)) := by
  induction tri with
  | nil =>
    intro nrm h
    simp [flatten_facets, facet_strings]
  | cons t rest ih =>
    intro nrm h
    rcases nrm with _ | ⟨n1, nrm2⟩
    · simp only [List.length_nil, List.length_cons] at h
      omega
    rcases nrm2 with _ | ⟨n2, nrm3⟩
    · simp only [List.length_nil, List.length_cons] at h
      omega
    rcases nrm3 with _ | ⟨n3, nr⟩
    · simp only [List.length_nil, List.length_cons] at h
      omega
    have h3 : nr.length = 3 * rest.length := by
      simp only [List.length_cons] at h
      omega
    simp [flatten_facets, facet_strings, chunk3, ih nr h3]

/-- Helper: calculate_normals on a flat facet list is the facet normal of
each facet repeated three times, in facet order. -/
theorem calc_normals_flatten (tri : List Facet) :
    calculate_normals (flatten_facets tri) =
      tri.flatMap (fun t => [facet_normal t, facet_normal t, facet_normal t]) := by
  unfold calculate_normals
  rw [chunk3_flatten]

/-- Helper: the length of the per-vertex normals buffer is three per facet. -/
theorem calc_normals_length (tri : List Facet) :
    (calculate_normals (flatten_facets tri)).length = 3 * tri.length := by
  rw [calc_normals_flatten]
  induction tri with
  | nil => rfl
  | cons t rest ih =>
    simp only [List.flatMap_cons, List.length_append, List.length_cons, ih,
      List.length_nil, List.length_cons]
    omega

/-- Helper: chunking the per-vertex normals buffer gives one repeated
triple per facet. -/
theorem chunk3_calc_normals (tri : List Facet) :
    chunk3 (calculate_normals (flatten_facets tri)) =
      tri.map (fun t => (facet_normal t, facet_normal t, facet_normal t)) := by
  induction tri with
  | nil => rfl
  | cons t rest ih =>
    show chunk3 (facet_normal t :: facet_normal t :: facet_normal t ::
        calculate_normals (flatten_facets rest)) =
      (facet_normal t, facet_normal t, facet_normal t) ::
        rest.map (fun t => (facet_normal t, facet_normal t, facet_normal t))
    rw [← ih]
    rfl

/-- Helper: zipping a facet list with its repeated normal triples and
formatting gives the per-facet blocks with each facet's own normal. -/
theorem zip_repeated_normals (tri : List Facet) :
    ((tri.zip (tri.map (fun t => (facet_normal t, facet_normal t, facet_normal t)))).map
        (fun p => format_facet [p.1.1, p.1.2.1, p.1.2.2] p.2.1)) =
      tri.map (fun t => format_facet [t.1, t.2.1, t.2.2] (facet_normal t)) := by
  induction tri with
  | nil => rfl
  | cons t rest ih => simp [ih]

/-- Helper: the concrete facet block the code prints for the unit triangle
with unit normal, with the second and third vertex lines unindented. -/
theorem format_facet_concrete :
    format_facet [((0 : ℚ), (0 : ℚ), (0 : ℚ)), (1, 0, 0), (0, 1, 0)] ((0 : ℚ), (0 : ℚ), (1 : ℚ)) =
      ("facet normal 0.000000 0.000000 1.000000\n  outer loop\n    vertex 0.000000 0.000000 0.000000\nvertex 1.000000 0.000000 0.000000\nvertex 0.000000 1.000000 0.000000\n  endloop\nendfacet\n") := by
  simp only [format_facet, fmtVec, List.map, fmt6_zero, fmt6_one]
  rfl

/-- Claim C1, counterexample: on a one-facet mesh the serialized file is
not in the claimed layout: the second and third vertex lines carry no
indentation and print adds a blank line between endfacet and endsolid. -/
theorem write_stl_claimed_layout_counterexample :
    write_stl [((0 : ℚ), (0 : ℚ), (0 : ℚ)), (1, 0, 0), (0, 1, 0)]
        [((0 : ℚ), (0 : ℚ), (1 : ℚ)), (0, 0, 1), (0, 0, 1)] =
      some (("solid\nfacet normal 0.000000 0.000000 1.000000\n  outer loop\n    vertex 0.000000 0.000000 0.000000\nvertex 1.000000 0.000000 0.000000\nvertex 0.000000 1.000000 0.000000\n  endloop\nendfacet\n\nendsolid\n"))
    ∧ ¬(write_stl [((0 : ℚ), (0 : ℚ), (0 : ℚ)), (1, 0, 0), (0, 1, 0)]
          [((0 : ℚ), (0 : ℚ), (1 : ℚ)), (0, 0, 1), (0, 0, 1)] =
        some (write_stl_claim
          [((((0 : ℚ), (0 : ℚ), (0 : ℚ)), (1, 0, 0), (0, 1, 0)), ((0 : ℚ), (0 : ℚ), (1 : ℚ)))])) := by
  have hcode : write_stl [((0 : ℚ), (0 : ℚ), (0 : ℚ)), (1, 0, 0), (0, 1, 0)]
      [((0 : ℚ), (0 : ℚ), (1 : ℚ)), (0, 0, 1), (0, 0, 1)] =
      some (("solid\nfacet normal 0.000000 0.000000 1.000000\n  outer loop\n    vertex 0.000000 0.000000 0.000000\nvertex 1.000000 0.000000 0.000000\nvertex 0.000000 1.000000 0.000000\n  endloop\nendfacet\n\nendsolid\n")) := by
    simp only [write_stl, facet_strings, Option.map_some, Option.map_none, format_facet_concrete]
    rfl
  have hclaim : write_stl_claim
      [((((0 : ℚ), (0 : ℚ), (0 : ℚ)), (1, 0, 0), (0, 1, 0)), ((0 : ℚ), (0 : ℚ), (1 : ℚ)))] =
      ("solid\nfacet normal 0.000000 0.000000 1.000000\n  outer loop\n    vertex 0.000000 0.000000 0.000000\n    vertex 1.000000 0.000000 0.000000\n    vertex 0.000000 1.000000 0.000000\n  endloop\nendfacet\nendsolid\n") := by
    simp only [write_stl_claim, facet_block_spec, fmtVec, List.map, fmt6_zero, fmt6_one]
    rfl
  refine ⟨hcode, ?_⟩
  rw [hcode, hclaim]
  intro hcontra
  have h2 := Option.some.inj hcontra
  revert h2
  decide

/-- Claim C1, amended: write_stl wraps the facet blocks in a single
solid / endsolid envelope with one block per group of 3 consecutive
vertices in input order, each block being facet normal, outer loop, the
three vertex lines, endloop, endfacet with all numbers printed by %.6f,
except that only the first vertex line of each block is indented (the
newline join inserts no indentation before the second and third) and a
blank line stands between the last facet block and endsolid; the normal
of block k is the normals entry at index 3 k. -/
theorem write_stl_facet_blocks (tri : List Facet) (nrm : List Vec3)
    (h : nrm.length = 3 * tri.length) :
    write_stl (flatten_facets tri) nrm =
      some (("solid\n") ++
        String.join ((tri.zip (chunk3 nrm)).map
          (fun p => format_facet [p.1.1, p.1.2.1, p.1.2.2] p.2.1)) ++
        ("\n") ++ ("endsolid\n")) := by
  unfold write_stl
  rw [facet_strings_flatten tri nrm h]
  rfl

/-- Witness for the amended claim C1 at the unit triangle with a
per-vertex normals buffer. -/
theorem write_stl_facet_blocks_witness :
    write_stl (flatten_facets [(((0 : ℚ), (0 : ℚ), (0 : ℚ)), (1, 0, 0), (0, 1, 0))])
        [((0 : ℚ), (0 : ℚ), (1 : ℚ)), (0, 0, 1), (0, 0, 1)] =
      some (("solid\n") ++
        String.join (([(((0 : ℚ), (0 : ℚ), (0 : ℚ)), (1, 0, 0), (0, 1, 0))].zip
            (chunk3 [((0 : ℚ), (0 : ℚ), (1 : ℚ)), (0, 0, 1), (0, 0, 1)])).map
          (fun p => format_facet [p.1.1, p.1.2.1, p.1.2.2] p.2.1)) ++
        ("\n") ++ ("endsolid\n")) :=
  write_stl_facet_blocks [(((0 : ℚ), (0 : ℚ), (0 : ℚ)), (1, 0, 0), (0, 1, 0))]
    [((0 : ℚ), (0 : ℚ), (1 : ℚ)), (0, 0, 1), (0, 0, 1)] (by simp)

/-- Helper: the facet normal of the unit-test triangle, computed from the
winding order, is the downward unit vector the test expects. -/
theorem facet_normal_test :
    facet_normal ((0, 1 / 2, 0), (1 / 2, -1 / 2, 0), (-1 / 2, -1 / 2, 0)) =
      ((0 : ℚ), (0 : ℚ), (-1 : ℚ)) := by
  unfold facet_normal vsub cross normalize normSq
  norm_num [ratSqrt]

/-- Claim C2, counterexample: on the in-src unit-test mesh of one facet
(3 vertices), calculate_normals returns the three per-vertex copies of the
facet normal that the test asserts, so its result has length 3, not
len(vertices) / 3 = 1 as the claim states. -/
theorem calculate_normals_count_counterexample :
    calculate_normals testVertices =
      [((0 : ℚ), (0 : ℚ), (-1 : ℚ)), (0, 0, -1), (0, 0, -1)]
    ∧ (calculate_normals testVertices).length = 3
    ∧ testVertices.length / 3 = 1 := by
  refine ⟨?_, ?_, rfl⟩
  · unfold calculate_normals
    rw [show chunk3 testVertices =
      [((0, 1 / 2, 0), (1 / 2, -1 / 2, 0), (-1 / 2, -1 / 2, 0))] from rfl]
    simp only [List.flatMap_cons, List.flatMap_nil, List.append_nil]
    rw [facet_normal_test]
  · simp [calculate_normals, testVertices, chunk3]

/-- Claim C2, amended: for a mesh given as facets, the normals buffer
produced by calculate_normals holds one normal per vertex, namely the
facet's normalized-cross-product normal repeated three times (length
equal to the vertex count, three times the facet count), and write_stl
then prints in the k-th facet block the normals entry at index 3 k, which
is exactly facet k's normal. -/
theorem calculate_normals_per_vertex (tri : List Facet) :
    (calculate_normals (flatten_facets tri)).length = (flatten_facets tri).length
    ∧ chunk3 (calculate_normals (flatten_facets tri)) =
        tri.map (fun t => (facet_normal t, facet_normal t, facet_normal t))
    ∧ write_stl (flatten_facets tri) (calculate_normals (flatten_facets tri)) =
        some (("solid\n") ++
          String.join (tri.map (fun t => format_facet [t.1, t.2.1, t.2.2] (facet_normal t))) ++
          ("\n") ++ ("endsolid\n")) := by
  refine ⟨?_, chunk3_calc_normals tri, ?_⟩
  · rw [calc_normals_length, flatten_facets_length]
  · unfold write_stl
    rw [facet_strings_flatten tri (calculate_normals (flatten_facets tri))
      (calc_normals_length tri)]
    rw [chunk3_calc_normals, zip_repeated_normals]
    rfl

/-- Helper: a failing filetype lookup always carries the
unsupported-extension ModelFileError. -/
theorem filetype_error_shape (o : Option String) (p : String) (e : PyError)
    (h : filetype o p = Except.error e) :
    e = PyError.modelFileError (("Unsupported file extension: ") ++ extension p) := by
  unfold filetype at h
  cases o with
  | some t => exact absurd h (by simp)
  | none =>
    by_cases hc : extension p = ".gcode" ∨ extension p = ".nc" ∨ extension p = ".stl"
    · rw [if_pos hc] at h
      exact absurd h (by simp)
    · rw [if_neg hc] at h
      injection h with h2
      exact h2.symm

/-- Claim C3: when the external parsers only ever raise their own
format-specific error kinds (the collaborator contract of spec section 6),
ModelFile.read never surfaces a format-specific error kind to its caller,
and a parse failure of the dispatched loader is re-raised as
ModelFileError carrying the original message behind the Parsing error
prefix. -/
theorem read_wraps_parser_errors (α : Type) (ft : Option String) (path : String)
    (g s : Except PyError α)
    (hg : ∀ e, g = Except.error e → ∃ m, e = PyError.gcodeParserError m)
    (hs : ∀ e, s = Except.error e → ∃ m, e = PyError.stlParseError m) :
    (∀ e, read α ft path g s = Except.error e → e.isParserSpecific = false)
    ∧ (∀ m, filetype ft path = Except.ok ("gcode") →
        g = Except.error (PyError.gcodeParserError m) →
        read α ft path g s = Except.error (PyError.modelFileError (("Parsing error: ") ++ m)))
    ∧ (∀ m, filetype ft path = Except.ok ("stl") →
        s = Except.error (PyError.stlParseError m) →
        read α ft path g s = Except.error (PyError.modelFileError (("Parsing error: ") ++ m))) := by
  refine ⟨fun e h => ?_, fun m hft hg2 => ?_, fun m hft hs2 => ?_⟩
  · unfold read at h
    cases hft : filetype ft path with
    | error e2 =>
      rw [hft] at h
      replace h : (Except.error e2 : Except PyError (LoadedModel × α)) = Except.error e := h
      injection h with h2
      rw [← h2, filetype_error_shape ft path e2 hft]
      rfl
    | ok ftv =>
      rw [hft] at h
      replace h : (if ftv = "gcode" then load_gcode_model α g
          else if ftv = "stl" then load_stl_model α s
          else Except.error (PyError.keyError ftv)) = Except.error e := h
      by_cases h1 : ftv = "gcode"
      · rw [if_pos h1] at h
        cases hge : g with
        | ok d =>
          rw [hge] at h
          exact absurd h (by simp [load_gcode_model])
        | error ge =>
          obtain ⟨m, rfl⟩ := hg ge hge
          rw [hge] at h
          replace h : (Except.error (PyError.modelFileError (("Parsing error: ") ++ m)) :
              Except PyError (LoadedModel × α)) = Except.error e := h
          injection h with h2
          rw [← h2]
          rfl
      · rw [if_neg h1] at h
        by_cases h2 : ftv = "stl"
        · rw [if_pos h2] at h
          cases hse : s with
          | ok d =>
            rw [hse] at h
            exact absurd h (by simp [load_stl_model])
          | error se =>
            obtain ⟨m, rfl⟩ := hs se hse
            rw [hse] at h
            replace h : (Except.error (PyError.modelFileError (("Parsing error: ") ++ m)) :
                Except PyError (LoadedModel × α)) = Except.error e := h
            injection h with h3
            rw [← h3]
            rfl
        · rw [if_neg h2] at h
          injection h with h3
          rw [← h3]
          rfl
  · simp only [read, hft, hg2, load_gcode_model, reduceIte]
  · simp only [read, hft, hs2, load_stl_model, reduceIte]
    rw [if_neg (by decide : ¬("stl" : String) = "gcode")]

/-- Witness for claim C3: reading a .stl path whose parser fails with a
StlParseError of message bad yields the ModelFileError wrapping. -/
theorem read_wraps_parser_errors_witness :
    read Unit none ("model.stl") (Except.ok ()) (Except.error (PyError.stlParseError ("bad"))) =
      Except.error (PyError.modelFileError (("Parsing error: ") ++ ("bad"))) :=
  (read_wraps_parser_errors Unit none ("model.stl") (Except.ok ())
    (Except.error (PyError.stlParseError ("bad")))
    (fun e h => absurd h (by simp))
    (fun e h => ⟨("bad"), by injection h with h2; exact h2.symm⟩)).2.2 ("bad") rfl rfl

/-- Claim C8: in the perspective branch of Scene.display the eye_height
passed to every actor is exactly
sqrt(y'^2 + z^2) * sin(radians(-degrees(atan2(z, y')) - elevation)) with
y' = y / zoom_factor, and at the concrete camera state y = 100, z = 50,
zoom_factor = 1, elevation = 0 that value is exactly -50. -/
theorem display_eye_height_formula :
    (∀ v : View3DState,
      display_eye_height v =
        Real.sqrt ((v.y / v.zoom_factor) ^ 2 + v.z ^ 2) *
          Real.sin (radians (-(degrees (atan2 v.z (v.y / v.zoom_factor))) - v.elevation)))
    ∧ display_eye_height ⟨100, 50, 1, 0⟩ = -50 := by
  constructor
  · intro v
    rfl
  · show Real.sqrt (((100 : ℝ) / 1) ^ 2 + (50 : ℝ) ^ 2) *
        Real.sin (radians (-(degrees (atan2 (50 : ℝ) ((100 : ℝ) / 1))) - 0)) = -50
    have h100 : ((100 : ℝ) / 1) = 100 := by norm_num
    rw [h100]
    have ha : atan2 (50 : ℝ) 100 = Real.arctan (1 / 2) := by
      unfold atan2
      rw [if_pos (by norm_num : (0 : ℝ) < 100)]
      norm_num
    rw [ha]
    have hr : radians (-(degrees (Real.arctan (1 / 2))) - 0) = -Real.arctan (1 / 2) := by
      unfold radians degrees
      field_simp
      ring
    rw [hr, Real.sin_neg, Real.sin_arctan]
    have h1 : (1 : ℝ) + (1 / 2) ^ 2 = 5 / 4 := by norm_num
    rw [h1]
    have h54 : Real.sqrt ((5 : ℝ) / 4) = Real.sqrt 5 / 2 := by
      rw [show ((5 : ℝ) / 4) = 5 * (1 / 2) ^ 2 by norm_num,
        Real.sqrt_mul (by norm_num : (0 : ℝ) ≤ 5),
        Real.sqrt_sq (by norm_num : (0 : ℝ) ≤ 1 / 2)]
      ring
    have h12500 : Real.sqrt ((100 : ℝ) ^ 2 + (50 : ℝ) ^ 2) = 50 * Real.sqrt 5 := by
      rw [show ((100 : ℝ) ^ 2 + (50 : ℝ) ^ 2) = 50 ^ 2 * 5 by norm_num,
        Real.sqrt_mul (by positivity),
        Real.sqrt_sq (by norm_num : (0 : ℝ) ≤ 50)]
    rw [h54, h12500]
    have h5 : Real.sqrt 5 ≠ 0 := ne_of_gt (Real.sqrt_pos.mpr (by norm_num))
    field_simp

/-- Claim C4, counterexample: storage.py has no UnsupportedExtension class;
for the path notes.txt the filetype property raises the ordinary
ModelFileError, not a distinct UnsupportedExtension kind. -/
theorem filetype_unsupported_kind_counterexample :
    filetype none ("notes.txt") =
      Except.error (PyError.modelFileError ("Unsupported file extension: .txt"))
    ∧ PyError.isUnsupportedExtension
        (PyError.modelFileError ("Unsupported file extension: .txt")) = false :=
  ⟨rfl, rfl⟩

/-- Claim C4, amended: for every ModelFile constructed without an explicit
filetype override whose lower-cased extension is not one of .gcode, .nc,
.stl, accessing filetype raises ModelFileError with the message
Unsupported file extension followed by the extension. -/
theorem filetype_unsupported_raises_model_file_error (p : String)
    (h : ¬(extension p = ".gcode" ∨ extension p = ".nc" ∨ extension p = ".stl")) :
    filetype none p =
      Except.error (PyError.modelFileError (("Unsupported file extension: ") ++ extension p)) := by
  unfold filetype
  rw [if_neg h]

/-- Witness for the amended claim C4 at the concrete path notes.txt. -/
theorem filetype_unsupported_raises_model_file_error_witness :
    filetype none ("notes.txt") =
      Except.error (PyError.modelFileError (("Unsupported file extension: ") ++ extension ("notes.txt"))) :=
  filetype_unsupported_raises_model_file_error ("notes.txt") (by decide)

/-- Claim C5, counterexample: the path consisting of the bare basename
.gcode ends in .gcode, yet filetype raises instead of returning gcode,
because os.path.splitext treats the leading dot of a basename as part of
the root, leaving an empty extension. -/
theorem filetype_dotfile_counterexample :
    (List.isSuffixOf ((".gcode").data) ((".gcode").data) = true)
    ∧ filetype none (".gcode") =
        Except.error (PyError.modelFileError ("Unsupported file extension: ")) := by
  constructor
  · decide
  · rfl

/-- Claim C5, amended: an explicit filetype override is returned regardless
of the path; otherwise the extension computed like os.path.splitext (the
suffix from the last dot of the basename, a leading dot of the basename
not counting as a separator) and lower-cased resolves .gcode and .nc to
gcode and .stl to stl. -/
theorem filetype_resolution :
    (∀ (t p : String), filetype (some t) p = Except.ok t)
    ∧ (∀ p : String, (extension p = ".gcode" ∨ extension p = ".nc") →
        filetype none p = Except.ok ("gcode"))
    ∧ (∀ p : String, extension p = ".stl" → filetype none p = Except.ok ("stl")) := by
  refine ⟨fun t p => rfl, fun p h => ?_, fun p h => ?_⟩
  · unfold filetype
    rw [if_pos (Or.elim h (fun h2 => Or.inl h2) (fun h2 => Or.inr (Or.inl h2)))]
    rw [if_pos h]
  · unfold filetype
    have hg : ¬(extension p = ".gcode" ∨ extension p = ".nc") := by
      rw [h]; decide
    rw [if_pos (Or.inr (Or.inr h))]
    rw [if_neg hg]

/-- Witness for the amended claim C5 at concrete paths: an override, an
upper-case .NC path and an upper-case .STL path. -/
theorem filetype_resolution_witness :
    filetype (some ("stl")) ("whatever.gcode") = Except.ok ("stl")
    ∧ filetype none ("Job.NC") = Except.ok ("gcode")
    ∧ filetype none ("part.STL") = Except.ok ("stl") :=
  ⟨filetype_resolution.1 ("stl") ("whatever.gcode"),
   filetype_resolution.2.1 ("Job.NC") (by decide),
   filetype_resolution.2.2 ("part.STL") (by decide)⟩

/-- Claim C6: the modified flag is false immediately after load_data,
becomes true after a successful scale and after translate, rotate_rel and
rotate_abs, becomes false after an export whose write succeeded, is left
with the whole state unchanged by an export whose write raised, and among
the modelled operations only a successful export ever turns it from true
to false. -/
theorem modified_flag_lifecycle :
    load_data.modified = false
    ∧ (∀ (f : ℚ) (s : StlModelState), 0 < f → ((scale f s).1).modified = true)
    ∧ (∀ (dx dy dz : ℚ) (s : StlModelState), (translate dx dy dz s).modified = true)
    ∧ (∀ (ax : Axis) (a : ℚ) (s : StlModelState), (rotate_rel ax a s).modified = true)
    ∧ (∀ (ax : Axis) (a : ℚ) (s : StlModelState), (rotate_abs ax a s).modified = true)
    ∧ (∀ s : StlModelState, (export_to_file true s).modified = false)
    ∧ (∀ s : StlModelState, export_to_file false s = s)
    ∧ (∀ (op : ModelOp) (s : StlModelState), s.modified = true →
        (model_step op s).modified = false → op = ModelOp.exportOp true) := by
  refine ⟨rfl, fun f s hf => ?_, fun dx dy dz s => rfl, fun ax a s => ?_,
    fun ax a s => ?_, fun s => rfl, fun s => rfl, fun op s hs hstep => ?_⟩
  · simp [scale, not_le.mpr hf]
  · cases ax <;> rfl
  · cases ax <;> rfl
  · cases op with
    | scaleOp f =>
      by_cases hf : f ≤ 0
      · simp [model_step, scale, hf, hs] at hstep
      · simp [model_step, scale, hf] at hstep
    | translateOp dx dy dz => simp [model_step, translate] at hstep
    | rotateRel ax a => cases ax <;> simp [model_step, rotate_rel] at hstep
    | rotateAbs ax a => cases ax <;> simp [model_step, rotate_abs] at hstep
    | exportOp ok =>
      cases ok with
      | true => rfl
      | false => simp [model_step, export_to_file, hs] at hstep

/-- Witness for claim C6 at concrete inputs: a successful scale by 2 sets
the flag, and the only-export conjunct instantiated at a successful export
from a translated state. -/
theorem modified_flag_lifecycle_witness :
    ((scale 2 load_data).1).modified = true
    ∧ ModelOp.exportOp true = ModelOp.exportOp true :=
  ⟨modified_flag_lifecycle.2.1 2 load_data (by norm_num),
   modified_flag_lifecycle.2.2.2.2.2.2.2 (ModelOp.exportOp true)
     (translate 1 0 0 load_data) (by decide) (by decide)⟩

/-- Claim C7: setting mode_2d to true and back to false restores
current_view to the perspective view with exactly the state it held
before the switch; the setter leaves both owned view states untouched;
mode_2d reads back what was set, and current_view denotes the 2D view
exactly when mode_2d holds. -/
theorem mode_2d_round_trip (s : SceneViews) (b : Bool) :
    current_view (set_mode_2d false (set_mode_2d true s)) = s.view_perspective
    ∧ (set_mode_2d b s).view_perspective = s.view_perspective
    ∧ (set_mode_2d b s).view_ortho = s.view_ortho
    ∧ mode_2d (set_mode_2d b s) = b
    ∧ current_view s = (if mode_2d s then s.view_ortho else s.view_perspective) :=
  ⟨rfl, rfl, rfl, rfl, rfl⟩

/-- Claim C9, counterexample: after add_model(7) followed by clear(), the
model field is still set to 7 but the actors collection no longer
contains it, so membership is not preserved by every operation while the
model field is set. -/
theorem actors_after_clear_counterexample :
    (scene_step SceneOp.clearOp (scene_step (SceneOp.addModel 7)
      ({ model := none, actors := [] } : SceneActors ℕ))).model = some 7
    ∧ ¬(7 ∈ (scene_step SceneOp.clearOp (scene_step (SceneOp.addModel 7)
        ({ model := none, actors := [] } : SceneActors ℕ))).actors) := by
  constructor
  · decide
  · decide

/-- Claim C9, amended: add_model establishes membership of the model in
actors, add_model and add_supporting_actor preserve the membership of any
already-set model, and clear is the one operation that breaks it: it
empties actors while leaving the model field as it was. -/
theorem model_membership_invariant (α : Type) (s : SceneActors α) (m a x : α) :
    ((scene_step (SceneOp.addModel m) s).model = some m
      ∧ m ∈ (scene_step (SceneOp.addModel m) s).actors)
    ∧ (a ∈ s.actors → a ∈ (scene_step (SceneOp.addModel m) s).actors)
    ∧ (s.model = some a → a ∈ s.actors →
        (scene_step (SceneOp.addSupportingActor x) s).model = some a
          ∧ a ∈ (scene_step (SceneOp.addSupportingActor x) s).actors)
    ∧ ((scene_step (SceneOp.clearOp : SceneOp α) s).model = s.model
        ∧ (scene_step (SceneOp.clearOp : SceneOp α) s).actors = []) := by
  refine ⟨⟨rfl, ?_⟩, fun ha => ?_, fun hm ha => ⟨hm, ?_⟩, rfl, rfl⟩
  · unfold scene_step
    exact List.mem_append_right s.actors (List.mem_singleton.mpr rfl)
  · unfold scene_step
    exact List.mem_append_left _ ha
  · unfold scene_step
    exact List.mem_append_left _ ha

/-- Witness for the amended claim C9 over natural-number actors: membership
after adding model 3, its preservation by a supporting actor 9, and the
clear behavior. -/
theorem model_membership_invariant_witness :
    (scene_step (SceneOp.addSupportingActor 9) (scene_step (SceneOp.addModel 3)
        ({ model := none, actors := [] } : SceneActors ℕ))).model = some 3
    ∧ 3 ∈ (scene_step (SceneOp.addSupportingActor 9) (scene_step (SceneOp.addModel 3)
        ({ model := none, actors := [] } : SceneActors ℕ))).actors :=
  model_membership_invariant ℕ
    (scene_step (SceneOp.addModel 3) ({ model := none, actors := [] } : SceneActors ℕ))
    3 3 9 |>.2.2.1 (by decide) (by decide)

/-- Claim C10, counterexample: with a current dimension value of 2 (nonzero)
and a target value of 0, the division succeeds but the computed factor is
0, so the spec-modelled scale raises GeometryError and the model is not
scaled: scaling_factor and the modified flag are unchanged. -/
theorem change_model_dimension_counterexample :
    ((change_model_dimension 2 0 load_data).1).modified = false
    ∧ ((change_model_dimension 2 0 load_data).1).scaling_factor = 1
    ∧ (change_model_dimension 2 0 load_data).2 =
        some (PyError.geometryError ("scale factor must be positive")) := by
  have h : change_model_dimension 2 0 load_data =
      (load_data, some (PyError.geometryError ("scale factor must be positive"))) := by
    unfold change_model_dimension scale_model scale load_data
    norm_num
  refine ⟨?_, ?_, ?_⟩ <;> rw [h] <;> rfl

/-- Claim C10, amended: the division is unguarded, so a zero current
dimension value raises ZeroDivisionError before any scaling, leaving the
state unchanged; with a nonzero current value the division succeeds and
the call delegates to scale_model with factor
(value / current) * scaling_factor, which scales the model exactly when
that factor is positive and otherwise raises GeometryError with the state
unchanged. -/
theorem change_model_dimension_behavior (current_value value : ℚ) (s : StlModelState) :
    (current_value = 0 →
      change_model_dimension current_value value s = (s, some PyError.zeroDivisionError))
    ∧ (current_value ≠ 0 →
      change_model_dimension current_value value s =
        scale_model ((value / current_value) * s.scaling_factor) s)
    ∧ (current_value ≠ 0 → 0 < (value / current_value) * s.scaling_factor →
      change_model_dimension current_value value s =
        ({ s with
            scaling_factor := s.scaling_factor * ((value / current_value) * s.scaling_factor)
            modified := true
            initialized := true }, none))
    ∧ (current_value ≠ 0 → (value / current_value) * s.scaling_factor ≤ 0 →
      change_model_dimension current_value value s =
        (s, some (PyError.geometryError ("scale factor must be positive")))) := by
  refine ⟨fun h0 => ?_, fun hne => ?_, fun hne hpos => ?_, fun hne hneg => ?_⟩
  · unfold change_model_dimension
    rw [if_pos h0]
  · unfold change_model_dimension
    rw [if_neg hne]
  · unfold change_model_dimension scale_model scale
    rw [if_neg hne, if_neg (not_le.mpr hpos)]
  · unfold change_model_dimension scale_model scale
    rw [if_neg hne, if_pos hneg]

/-- Witness for the amended claim C10 at concrete inputs: current value 0
raises ZeroDivisionError, and current value 2 with target 4 scales the
freshly loaded model. -/
theorem change_model_dimension_behavior_witness :
    change_model_dimension 0 4 load_data = (load_data, some PyError.zeroDivisionError)
    ∧ change_model_dimension 2 4 load_data =
        ({ load_data with
            scaling_factor := load_data.scaling_factor * ((4 / 2) * load_data.scaling_factor)
            modified := true
            initialized := true }, none) :=
  ⟨(change_model_dimension_behavior 0 4 load_data).1 rfl,
   (change_model_dimension_behavior 2 4 load_data).2.2.1 (by norm_num)
     (by norm_num [load_data])⟩

end Tatlin
